import Mathlib

/-
Verification of the sunpy utility-layer specification against a shallow
embedding of `sunpy/util/decorators.py` and (spec-modelled) of the
`sunpy.sun.constants` registry.

Python values are embedded as follows: strings are `String` (manipulated
through their `List Char` data to keep every operation structurally
recursive and kernel-computable), fallible operations return
`Except PyErr`, and the effect of `warnings.warn` is tracked by a writer
component `List Warning` threaded through every call.
-/

set_option maxRecDepth 8000

namespace SunpyUtil

/-- The two warning categories imported from `sunpy.util.exceptions`. -/
inductive WCategory where
  | SunpyDeprecationWarning
  | SunpyPendingDeprecationWarning
  deriving DecidableEq

/-- One emitted warning: the message and the category passed to `warnings.warn`. -/
structure Warning where
  message : String
  category : WCategory
  deriving DecidableEq

/-- The Python exception kinds raised by the embedded code paths. -/
inductive PyErr where
  | attributeError
  | typeError
  | keyError
  | valueError
  deriving DecidableEq

/-- A Python callable with argument type `α` and result type `β`: calling it
emits a list of warnings and either returns a value or raises. -/
def Call (α β : Type) : Type := α → List Warning × Except PyErr β

/-! ### String primitives (embedding of the Python `str` operations used) -/

/-- Python whitespace characters recognised by `str.strip()` / `int()`
(ASCII subset; the source only ever handles ASCII version strings). -/
def pyWs (c : Char) : Bool :=
  c == ' ' || c == '\t' || c == '\n' || c == '\r' || c == '\x0b' || c == '\x0c'

/-- Strip characters satisfying `p` from both ends of a character list. -/
def stripBoth (p : Char → Bool) (l : List Char) : List Char :=
  ((l.dropWhile p).reverse.dropWhile p).reverse

/-- `s.split(sep)` for a one-character separator, on character lists.
Mirrors Python: splitting the empty string yields `[""]`. -/
def splitOnCh (sep : Char) : List Char → List (List Char)
  | [] => [[]]
  | c :: rest =>
    let r := splitOnCh sep rest
    if c == sep then [] :: r
    else
      match r with
      | h :: t => (c :: h) :: t
      | [] => [[c]]

/-- Join character-list lines with newline characters (inverse of splitting on `'\n'`). -/
def joinNl : List (List Char) → List Char
  | [] => []
  | [l] => l
  | l :: ls => l ++ '\n' :: joinNl ls

/-- Numeric value of a decimal digit character. -/
def digitNat (c : Char) : Nat := c.toNat - 48

/-- Digit-run parser for Python `int()`: decimal digits with single
underscores allowed between digits (`1_0` is valid, `_1`, `1_`, `1__0` are not). -/
def pyDigitsAux (acc : Nat) : List Char → Option Nat
  | [] => some acc
  | '_' :: c :: rest => if c.isDigit then pyDigitsAux (acc * 10 + digitNat c) rest else none
  | c :: rest => if c.isDigit then pyDigitsAux (acc * 10 + digitNat c) rest else none

/-- A non-empty digit run (with internal underscores), or `none`. -/
def pyDigits : List Char → Option Nat
  | [] => none
  | c :: rest => if c.isDigit then pyDigitsAux (digitNat c) rest else none

/-- Embedding of Python `int(s)`: strip whitespace, optional sign, decimal
digits (underscore separators allowed); `none` models the `ValueError`. -/
def pyInt (s : String) : Option Int :=
  match stripBoth pyWs s.data with
  | '+' :: rest => (pyDigits rest).map (fun n => (n : Int))
  | '-' :: rest => (pyDigits rest).map (fun n => -(n : Int))
  | l => (pyDigits l).map (fun n => (n : Int))

/-! ### `get_removal_version` -/

/-- Embedding of `get_removal_version(since)` from `sunpy/util/decorators.py`:
`since.split('.')[:2]` (unpacking fewer than two parts raises `ValueError`),
the LTS test `since_minor == '0'` is a *string* comparison, and the
non-LTS branch never converts the minor component to an integer. -/
def get_removal_version (since : String) : Except PyErr (Int × Int) :=
  match (splitOnCh '.' since.data).map String.mk with
  | since_major :: since_minor :: _ =>
    let since_lts := since_minor == "0"
    if since_lts then
      match pyInt since_major, pyInt since_minor with
      | some maj, some mnr => .ok (maj, mnr + 1)
      | _, _ => .error .valueError
    else
      match pyInt since_major with
      | some maj => .ok (maj + 1, 1)
      | none => .error .valueError
  | _ => .error .valueError

/-- The f-string `f"{major}.{minor}"` applied to the removal-version pair. -/
def verStr (p : Int × Int) : String := toString p.1 ++ "." ++ toString p.2

/-! ### `str.format` (named fields, as used by the deprecation messages) -/

/-- Dictionary lookup for a format-field name among the keyword arguments. -/
def lookupStr (m : List (String × String)) (k : List Char) : Option String :=
  match m with
  | [] => none
  | (a, b) :: rest => if a.data = k then some b else lookupStr rest k

/-- Scanner state for the `str.format` embedding: literal text, just after
an opening brace, just after a closing brace, or inside a field name. -/
inductive FmtMode where
  | lit
  | open1
  | close1
  | fieldAcc (acc : List Char)

/-- Embedding of `str.format(**m)` restricted to the simple named fields the
source uses: doubled braces are escapes, a braced `name` substitutes the
keyword `name` (missing keyword models `KeyError`), and a stray or
unterminated brace models `ValueError`. One character is consumed per step. -/
def formatAux (m : List (String × String)) : FmtMode → List Char → Except PyErr (List Char)
  | .lit, [] => .ok []
  | .lit, c :: rest =>
    if c = '{' then formatAux m .open1 rest
    else if c = '}' then formatAux m .close1 rest
    else (formatAux m .lit rest).map (fun t => c :: t)
  | .open1, [] => .error .valueError
  | .open1, c :: rest =>
    if c = '{' then (formatAux m .lit rest).map (fun t => '{' :: t)
    else if c = '}' then
      match lookupStr m [] with
      | some v => (formatAux m .lit rest).map (fun t => v.data ++ t)
      | none => .error .keyError
    else formatAux m (.fieldAcc [c]) rest
  | .close1, [] => .error .valueError
  | .close1, c :: rest =>
    if c = '}' then (formatAux m .lit rest).map (fun t => '}' :: t)
    else .error .valueError
  | .fieldAcc _, [] => .error .valueError
  | .fieldAcc acc, c :: rest =>
    if c = '}' then
      match lookupStr m acc with
      | some v => (formatAux m .lit rest).map (fun t => v.data ++ t)
      | none => .error .keyError
    else formatAux m (.fieldAcc (acc ++ [c])) rest

/-- `s.format(**m)` on strings. -/
def pyFormat (s : String) (m : List (String × String)) : Except PyErr String :=
  (formatAux m .lit s.data).map String.mk

/-! ### `textwrap.dedent` and `deprecate_doc` -/

/-- Space or tab, the characters `textwrap.dedent` treats as indentation. -/
def isDocWs (c : Char) : Bool := c == ' ' || c == '\t'

/-- The margin-combining step of `textwrap.dedent`: the longest common
whitespace prefix of two indents (subsumes all three branches of the
Python loop over candidate margins). -/
def marginMeet : List Char → List Char → List Char
  | x :: xs, y :: ys => if x == y then x :: marginMeet xs ys else []
  | _, _ => []

/-- Embedding of `textwrap.dedent`: whitespace-only lines are normalised to
empty, the margin is the common leading-whitespace prefix of the remaining
non-empty lines, and that margin is removed from every line starting with it. -/
def dedent (text : List Char) : List Char :=
  let ls := (splitOnCh '\n' text).map (fun l => if !l.isEmpty && l.all isDocWs then [] else l)
  let indents := (ls.filter (fun l => !l.isEmpty)).map (fun l => l.takeWhile isDocWs)
  let margin :=
    match indents with
    | [] => []
    | i :: is => is.foldl marginMeet i
  let ls' :=
    if margin.isEmpty then ls
    else ls.map (fun l => if margin.isPrefixOf l then l.drop margin.length else l)
  joinNl ls'

/-- Embedding of the local helper `deprecate_doc(old_doc, message)`: a
missing or empty docstring becomes `''`, the old docstring is dedented and
stripped of surrounding newlines, a `.. deprecated::` note is prepended,
and a trailing `\ ` marker is added when the original docstring was blank. -/
def deprecate_doc (since : String) (old_doc : Option String) (message : String) : String :=
  let old := old_doc.getD ""
  let old := String.mk (stripBoth (fun c => c == '\n') (dedent old.data))
  let new_doc := "\n.. deprecated:: " ++ since ++ "\n    "
      ++ String.mk (stripBoth pyWs message.data) ++ "\n\n" ++ old
  if old == "" then new_doc ++ "\\ " else new_doc

/-! ### The deprecation engine (`deprecated` / `_deprecated`) -/

/-- A Python function object: docstring, `__name__`, whether it is an
extension slot wrapper (`type(func) is type(str.__dict__['__add__'])`,
e.g. `object.__init__`), and its calling behaviour. -/
structure PyFunc (α β : Type) where
  doc : Option String
  fname : String
  slot : Bool
  call : Call α β

/-- The `method_types` wrappers of the source:
`(classmethod, staticmethod, types.MethodType)`. -/
inductive MethodKind where
  | classMethod
  | staticMethod
  | boundMethod
  deriving DecidableEq

/-- A Python class object: docstring, `__name__`, whether
`cls.__new__ is object.__new__`, its `__init__` and `__new__` entries
(as the plain functions `get_function` would return), and an opaque
bundle `rest` standing for every other attribute of the class. -/
structure PyClass (α β γ : Type) where
  doc : Option String
  cname : String
  newInherited : Bool
  init : PyFunc α β
  new : PyFunc α β
  rest : γ

/-- A decoration target: a class, a plain function, a `method_types`
wrapper around a function, or any other object (its optional `__name__`
attribute, its optional `__doc__`, and what calling it does — for a
non-callable, raising `TypeError`). -/
inductive PyObj (α β γ : Type) where
  | ofClass (c : PyClass α β γ)
  | ofFunc (f : PyFunc α β)
  | ofMethod (k : MethodKind) (f : PyFunc α β)
  | other (nameAttr : Option String) (doc : Option String) (app : Call α β)

/-- The constructor entry point of a class: `__init__` when the class does
not override `__new__`, otherwise `__new__` (instantiation runs it). -/
def entryPoint (c : PyClass α β γ) : Call α β :=
  if c.newInherited then c.init.call else c.new.call

/-- The closure `deprecated_func` built inside `deprecate_function`: pick
the category from `pending`, call `warnings.warn(message, category)`, then
delegate to the original with identical arguments. -/
def deprecated_func_call (pending : Bool) (wt pwt : WCategory) (message : String)
    (func : Call α β) : Call α β :=
  fun a =>
    let category := if pending then pwt else wt
    let r := func a
    (⟨message, category⟩ :: r.1, r.2)

/-- The function-level effect of `deprecate_function` on a plain function:
`functools.wraps` copies `__name__` and `__doc__` unless the original is an
extension slot wrapper (then the fresh closure keeps its own name and a
`None` docstring), the docstring gains the deprecation note, and the call
becomes `deprecated_func`. -/
def wrapFunc (pending : Bool) (wt pwt : WCategory) (since message : String)
    (f : PyFunc α β) : PyFunc α β :=
  { doc := some (deprecate_doc since (if f.slot then none else f.doc) message)
    fname := if f.slot then "deprecated_func" else f.fname
    slot := false
    call := deprecated_func_call pending wt pwt message f.call }

/-- Embedding of the local `deprecate_function(func, message, warning_type)`:
`method_types` wrappers are unwrapped, wrapped, and re-wrapped with
`type(func)` (for a bound method, `types.MethodType` called with a single
argument raises `TypeError`); a class target would be wrapped into a plain
forwarding function over its construction; any other object is wrapped into
a forwarding closure (whose later call raises whatever calling the object
raises). -/
def deprecate_function (pending : Bool) (wt pwt : WCategory) (since : String)
    (obj : PyObj α β γ) (message : String) : Except PyErr (PyObj α β γ) :=
  match obj with
  | .ofMethod .boundMethod _ => .error .typeError
  | .ofMethod k f => .ok (.ofMethod k (wrapFunc pending wt pwt since message f))
  | .ofFunc f => .ok (.ofFunc (wrapFunc pending wt pwt since message f))
  | .ofClass c => .ok (.ofFunc
      { doc := some (deprecate_doc since c.doc message)
        fname := c.cname
        slot := false
        call := deprecated_func_call pending wt pwt message (entryPoint c) })
  | .other nm doc app => .ok (.ofFunc
      { doc := some (deprecate_doc since doc message)
        fname := nm.getD "deprecated_func"
        slot := false
        call := deprecated_func_call pending wt pwt message app })

/-- Embedding of the local `deprecate_class(cls, message, warning_type)`:
the docstring gains the deprecation note in place, then `__init__` is
wrapped when `cls.__new__ is object.__new__`, else `__new__` is wrapped;
the (mutated) class itself is returned. -/
def deprecate_class (pending : Bool) (wt pwt : WCategory) (since : String)
    (c : PyClass α β γ) (message : String) : PyClass α β γ :=
  let c1 := { c with doc := some (deprecate_doc since c.doc message) }
  if c.newInherited then
    { c1 with init := wrapFunc pending wt pwt since message c.init }
  else
    { c1 with new := wrapFunc pending wt pwt since message c.new }

/-- `get_function(obj).__name__`: classes and (wrapped) functions expose
their name; another object without a `__name__` attribute raises
`AttributeError`. -/
def getName : PyObj α β γ → Except PyErr String
  | .ofClass c => .ok c.cname
  | .ofFunc f => .ok f.fname
  | .ofMethod _ f => .ok f.fname
  | .other (some n) _ _ => .ok n
  | .other none _ _ => .error .attributeError

/-- The `message` argument of `_deprecated` / the inner `deprecate`:
either a string or (when the decorator factory is applied directly to the
target) a plain function. -/
inductive MessageArg (α β : Type) where
  | str (s : String)
  | func (f : PyFunc α β)

/-- The default message template chosen when `pending` is true. -/
def tmplPending : String :=
  "The {func} {obj_type} will be deprecated in version {deprecated_version}."

/-- The default message template chosen when `pending` is false. -/
def tmplHard : String :=
  "The {func} {obj_type} is deprecated and may be removed in {future_version}."

/-- The `obj_type_name` resolution inside `deprecate`: an explicit
`obj_type` wins, otherwise classes, plain functions, `method_types`
wrappers, and everything else (including slot wrappers, which
`inspect.isfunction` rejects) map to their friendly names. -/
def objTypeName (obj_type : Option String) (obj : PyObj α β γ) : String :=
  match obj_type with
  | some t => t
  | none =>
    match obj with
    | .ofClass _ => "class"
    | .ofFunc f => if f.slot then "object" else "function"
    | .ofMethod _ _ => "method"
    | .other _ _ _ => "object"

/-- The message-building steps of the inner `deprecate` closure: the default
template (selected by `pending`) is used when `message` is empty or is a
function, the `Use ... instead.` clause is prepared only on that default
path, `future_version` renders the removal version, and the template is
format-substituted with the name, versions, alternative and object type.
First, the rendering of the removal version as `future_version`. -/
def futureVersion : Option String → String
  | none => "a future version"
  | some rv => "version " ++ rv

/-- The message-building steps of the inner `deprecate` closure (body). -/
def buildMessage {α β : Type} (since : String) (messageArg : MessageArg α β)
    (name alternative : String) (pending : Bool)
    (removal_version : Option String) (obj_type_name : String) : Except PyErr String :=
  let defaults :=
    ((if pending then tmplPending else tmplHard),
     if alternative == "" then "" else "\n        Use " ++ alternative ++ " instead.")
  let (message, altmessage) :=
    match messageArg with
    | .str s => if s == "" then defaults else (s, "")
    | .func _ => defaults
  let future_version := futureVersion removal_version
  (pyFormat message
    [("func", name), ("name", name), ("deprecated_version", since),
     ("future_version", future_version), ("alternative", alternative),
     ("obj_type", obj_type_name)]).map (fun msg => msg ++ altmessage)

/-- Embedding of the inner `deprecate(obj, ...)` closure: resolve the object
type and the name (deriving the name from the target raises
`AttributeError` when the target has no `__name__`), build the message,
then dispatch: classes to `deprecate_class`, everything else to
`deprecate_function`. -/
def deprecate (since : String) (messageArg : MessageArg α β) (nameArg alternative : String)
    (pending : Bool) (removal_version obj_type : Option String)
    (wt pwt : WCategory) (obj : PyObj α β γ) : Except PyErr (PyObj α β γ) := do
  let otn := objTypeName obj_type obj
  let name ← if nameArg == "" then getName obj else .ok nameArg
  let message ← buildMessage since messageArg name alternative pending removal_version otn
  match obj with
  | .ofClass c => .ok (.ofClass (deprecate_class pending wt pwt since c message))
  | o => deprecate_function pending wt pwt since o message

/-- The result of the decorator factory: either the `deprecate` closure
(to be applied to a target later) or — when `message` was itself a
function — the immediately wrapped target. -/
inductive DeprecatedResult (α β γ : Type) where
  | decorator (d : PyObj α β γ → Except PyErr (PyObj α β γ))
  | applied (r : Except PyErr (PyObj α β γ))

/-- Embedding of `_deprecated(...)`: when the `message` argument is itself a
function, `deprecate` is applied to it at once (that function becoming the
target, with `message` still bound to it so the default template is used);
otherwise the `deprecate` closure is returned as the decorator. -/
def _deprecated {α β γ : Type} (since : String) (message : MessageArg α β)
    (name alternative : String) (pending : Bool)
    (removal_version obj_type : Option String) (wt pwt : WCategory) :
    DeprecatedResult α β γ :=
  match message with
  | .func f => .applied
      (deprecate since message name alternative pending removal_version obj_type wt pwt
        (.ofFunc f))
  | .str _ => .decorator
      (fun obj =>
        deprecate since message name alternative pending removal_version obj_type wt pwt obj)

/-- Embedding of the public `deprecated(since, ...)` factory: compute the
removal version (propagating its `ValueError`), render it as
`f"{major}.{minor}"`, and delegate to `_deprecated` with the two sunpy
warning categories. -/
def deprecated {α β γ : Type} (since : String) (message : MessageArg α β)
    (name alternative : String) (pending : Bool) (obj_type : Option String) :
    Except PyErr (DeprecatedResult α β γ) :=
  match get_removal_version since with
  | .error e => .error e
  | .ok p => .ok
      (_deprecated since message name alternative pending (some (verStr p)) obj_type
        .SunpyDeprecationWarning .SunpyPendingDeprecationWarning)

/-! ### `add_common_docstring` -/

/-- The decorator object of class `add_common_docstring`: the optional
append/prepend fragments and the substitution keyword arguments. -/
structure add_common_docstring where
  append : Option String
  prepend : Option String
  kwargs : List (String × String)

/-- Embedding of `add_common_docstring.__call__(func)` acting on the
target's docstring: a falsy docstring becomes `''`, falsy fragments are
normalised to `''` (mutating the decorator object), the non-empty
fragments are appended then prepended, and `str.format` is applied only
when keyword arguments were given. Returns the new docstring of the (same,
mutated) callable together with the mutated decorator object. -/
def add_common_docstring.callOn (self : add_common_docstring) (func_doc : Option String) :
    Except PyErr (String × add_common_docstring) :=
  let doc0 := func_doc.getD ""
  let app := self.append.getD ""
  let pre := self.prepend.getD ""
  let self' : add_common_docstring := { self with append := some app, prepend := some pre }
  let doc1 := if app == "" then doc0 else doc0 ++ app
  let doc2 := if pre == "" then doc1 else pre ++ doc1
  match self.kwargs with
  | [] => .ok (doc2, self')
  | _ => (pyFormat doc2 self.kwargs).map (fun d => (d, self'))

/-! ### Constants registry

Modelled from the spec: the module `sunpy.sun.constants` (its `find` and
`get` functions and the underlying `constants` mapping) is not part of the
visible source slice — only its test file is — so the registry is embedded
from the specification's words: a fixed table of records keyed by
canonical name; `find()` lists every registered name in registration
order; `find(sub)` keeps the names whose canonical name or any alias
case-insensitively contains `sub`; `get(name)` returns the record for a
registered name and fails with a LookupError kind otherwise. The
floating-point magnitude of a record is kept as an opaque string, since
none of the claims inspect it. -/

/-- Modelled from the spec: one registered physical constant —
name, aliases, value (opaque rendering), unit, optional uncertainty,
reference. -/
structure ConstantRecord where
  cname : String
  aliases : List String
  value : String
  unit : String
  uncertainty : Option String
  reference : String
  deriving DecidableEq

namespace Constants

/-- Lower-case the characters of a string (case-insensitive matching). -/
def lcs (s : String) : List Char := s.data.map Char.toLower

/-- Whether `needle` occurs as a contiguous segment of `hay`. -/
def segIn (needle : List Char) : List Char → Bool
  | [] => needle.isEmpty
  | c :: t => needle.isPrefixOf (c :: t) || segIn needle t

/-- Whether a record's canonical name or one of its aliases
case-insensitively contains the substring. -/
def recordMatches (sub : String) (r : ConstantRecord) : Bool :=
  segIn (lcs sub) (lcs r.cname) || r.aliases.any (fun a => segIn (lcs sub) (lcs a))

/-- Modelled from the spec: `find(substring=None)` — all registered names,
or the names matching the substring. -/
def find (reg : List ConstantRecord) : Option String → List String
  | none => reg.map (fun r => r.cname)
  | some sub => (reg.filter (recordMatches sub)).map (fun r => r.cname)

/-- Modelled from the spec: `get(name)` — the record registered under the
canonical name, or a LookupError kind. -/
def get (reg : List ConstantRecord) (n : String) : Except PyErr ConstantRecord :=
  match reg.find? (fun r => r.cname == n) with
  | some r => .ok r
  | none => .error .keyError

end Constants

/-! ### Helper lemmas -/

/-- Decidable equality for `Except` results, used to evaluate the embedded
functions at concrete inputs. -/
def exceptDecEq {ε α : Type} [DecidableEq ε] [DecidableEq α] :
    DecidableEq (Except ε α) := fun x y =>
  match x, y with
  | .ok a, .ok b =>
    if h : a = b then isTrue (by rw [h])
    else isFalse (fun hc => h (Except.ok.inj hc))
  | .error a, .error b =>
    if h : a = b then isTrue (by rw [h])
    else isFalse (fun hc => h (Except.error.inj hc))
  | .ok _, .error _ => isFalse (fun hc => Except.noConfusion hc)
  | .error _, .ok _ => isFalse (fun hc => Except.noConfusion hc)

instance {ε α : Type} [DecidableEq ε] [DecidableEq α] : DecidableEq (Except ε α) :=
  exceptDecEq

theorem str_data_append (s t : String) : (s ++ t).data = s.data ++ t.data := by
  cases s; cases t; rfl

theorem str_mk_data (s : String) : String.mk s.data = s := by
  cases s; rfl

theorem str_append_assoc (a b c : String) : a ++ b ++ c = a ++ (b ++ c):= by
  cases a; cases b; cases c
  exact congrArg String.mk (List.append_assoc _ _ _)

theorem str_append_empty (s : String) : s ++ "" = s := by
  cases s
  exact congrArg String.mk (List.append_nil _)

theorem str_empty_append (s : String) : "" ++ s = s := by
  cases s; rfl

/-! ### Claim C2 -/

/-- C2: `get_removal_version` splits `since` into a major and a minor
component; when the minor component is `"0"` (the LTS case) the removal
version is `(major, minor + 1)`, rendered `"M.1"`; otherwise it is
`(major + 1, 1)`, rendered `"(M+1).1"`. -/
theorem c2_removal_version (since sMaj sMin : String) (rest : List String) (M : Int)
    (hsplit : (splitOnCh '.' since.data).map String.mk = sMaj :: sMin :: rest)
    (hMaj : pyInt sMaj = some M) :
    (sMin = "0" →
      get_removal_version since = .ok (M, 1) ∧ verStr (M, 1) = toString M ++ ".1")
    ∧ (sMin ≠ "0" →
      get_removal_version since = .ok (M + 1, 1)
        ∧ verStr (M + 1, 1) = toString (M + 1) ++ ".1") := by
  have hver : ∀ n : Int, verStr (n, 1) = toString n ++ ".1" := by
    intro n
    show toString n ++ "." ++ toString (1 : Int) = toString n ++ ".1"
    rw [str_append_assoc]
    rfl
  constructor
  · intro h0
    subst h0
    refine ⟨?_, hver M⟩
    unfold get_removal_version
    rw [hsplit]
    simp only [hMaj]
    rfl
  · intro hne
    refine ⟨?_, hver (M + 1)⟩
    unfold get_removal_version
    rw [hsplit]
    have : (sMin == "0") = false := by
      simp only [beq_eq_false_iff_ne, ne_eq]
      exact hne
    simp only [this, hMaj]
    rfl

/-- C2 witness: `since = "1.0"` gives removal `(1, 1)` rendered `"1.1"`, and
`since = "1.3"` gives removal `(2, 1)` rendered `"2.1"`. -/
theorem c2_removal_version_witness :
    (get_removal_version "1.0" = .ok (1, 1) ∧ verStr (1, 1) = "1.1")
    ∧ (get_removal_version "1.3" = .ok (2, 1) ∧ verStr (2, 1) = "2.1") := by
  have h0 := (c2_removal_version "1.0" "1" "0" [] 1 (by rfl) (by rfl)).1 rfl
  have h3 := (c2_removal_version "1.3" "1" "3" [] 1 (by rfl) (by rfl)).2 (by decide)
  have h31 : (1 : Int) + 1 = 2 := by decide
  rw [h31] at h3
  exact ⟨⟨h0.1, by rw [h0.2]; rfl⟩, ⟨h3.1, by rw [h3.2]; rfl⟩⟩

/-! ### Message construction lemmas -/

/-- Evaluating the hard template under the format map used by `deprecate`. -/
theorem pyFormat_tmplHard (name since fv alt otn : String) :
    pyFormat tmplHard
      [("func", name), ("name", name), ("deprecated_version", since),
       ("future_version", fv), ("alternative", alt), ("obj_type", otn)]
    = .ok ("The " ++ (name ++ (" " ++ (otn
        ++ (" is deprecated and may be removed in " ++ (fv ++ ".")))))) := rfl

/-- Evaluating the pending template under the format map used by
`deprecate`: the version substituted is `since` (the `deprecated_version`
key), not the removal version. -/
theorem pyFormat_tmplPending (name since fv alt otn : String) :
    pyFormat tmplPending
      [("func", name), ("name", name), ("deprecated_version", since),
       ("future_version", fv), ("alternative", alt), ("obj_type", otn)]
    = .ok ("The " ++ (name ++ (" " ++ (otn
        ++ (" will be deprecated in version " ++ (since ++ ".")))))) := rfl

/-- The `Use ... instead.` clause appended on the default-message path. -/
def altClause (alternative : String) : String :=
  if alternative == "" then "" else "\n        Use " ++ alternative ++ " instead."

/-- The default message built by `deprecate` when `pending` is false: the
hard template with the removal version substituted, plus the alternative
clause. -/
theorem buildMessage_default_hard {α β : Type} (since name alternative : String)
    (rv : Option String) (otn : String) :
    buildMessage (α := α) (β := β) since (.str "") name alternative false rv otn
      = .ok (("The " ++ (name ++ (" " ++ (otn
          ++ (" is deprecated and may be removed in " ++ (futureVersion rv ++ "."))))))
          ++ altClause alternative) := by
  unfold buildMessage
  simp only [show (("" : String) == "") = true from rfl, if_true]
  rw [if_neg (show ¬(false = true) by decide),
    pyFormat_tmplHard name since (futureVersion rv) alternative otn]
  rfl

/-- The default message built by `deprecate` when `pending` is true: the
pending template with the `since` version substituted (the removal version
is ignored on this path), plus the alternative clause. -/
theorem buildMessage_default_pending {α β : Type} (since name alternative : String)
    (rv : Option String) (otn : String) :
    buildMessage (α := α) (β := β) since (.str "") name alternative true rv otn
      = .ok (("The " ++ (name ++ (" " ++ (otn
          ++ (" will be deprecated in version " ++ (since ++ "."))))))
          ++ altClause alternative) := by
  unfold buildMessage
  simp only [show (("" : String) == "") = true from rfl, if_true]
  rw [pyFormat_tmplPending name since (futureVersion rv) alternative otn]
  rfl

/-! ### Claim C3 -/

/-- C3 counterexample: for `since = "1.3"` the removal version is `"2.1"`,
but the default pending message substitutes `since` — the message mentions
version 1.3, not the removal version 2.1 the claim requires. -/
theorem c3_counterexample :
    get_removal_version "1.3" = .ok (2, 1)
    ∧ buildMessage (α := Nat) (β := Nat) "1.3" (.str "") "f" "" true (some "2.1") "function"
        = .ok "The f function will be deprecated in version 1.3."
    ∧ "The f function will be deprecated in version 1.3."
        ≠ "The f function will be deprecated in version 2.1." := by
  refine ⟨rfl, rfl, ?_⟩
  decide

/-- C3 amended: with no custom message, the message comes from the template
selected by `pending`; the non-pending template substitutes the removal
version (as `"version {removal}"`), while the pending template substitutes
the `since` version, not the removal version; both substitute the resolved
name and object type and gain a `Use {alternative} instead.` clause exactly
when `alternative` is non-empty. -/
theorem c3_default_message_amended {α β : Type} (since name alternative rv otn : String) :
    (buildMessage (α := α) (β := β) since (.str "") name alternative false (some rv) otn
      = .ok (("The " ++ (name ++ (" " ++ (otn
          ++ (" is deprecated and may be removed in " ++ (("version " ++ rv) ++ "."))))))
          ++ altClause alternative))
    ∧ (buildMessage (α := α) (β := β) since (.str "") name alternative true (some rv) otn
      = .ok (("The " ++ (name ++ (" " ++ (otn
          ++ (" will be deprecated in version " ++ (since ++ "."))))))
          ++ altClause alternative)) :=
  ⟨buildMessage_default_hard since name alternative (some rv) otn,
   buildMessage_default_pending since name alternative (some rv) otn⟩

/-! ### The decorator pipeline: helper lemmas -/

/-- Shorthand for the hard warning category passed by `deprecated`. -/
def wtD : WCategory := .SunpyDeprecationWarning

/-- Shorthand for the pending warning category passed by `deprecated`. -/
def wtP : WCategory := .SunpyPendingDeprecationWarning

/-- Evaluating the `deprecate` closure on a plain function target: resolve
the name, build the message, wrap with `wrapFunc`. -/
theorem deprecate_ofFunc {α β γ : Type} (since : String) (msgArg : MessageArg α β)
    (nameArg alt : String) (pending : Bool) (rv ot : Option String) (wt pwt : WCategory)
    (f : PyFunc α β) :
    deprecate (γ := γ) since msgArg nameArg alt pending rv ot wt pwt (.ofFunc f)
      = (buildMessage since msgArg (if nameArg == "" then f.fname else nameArg) alt pending rv
          (objTypeName ot (.ofFunc f (γ := γ)))).bind
          (fun msg => .ok (.ofFunc (wrapFunc pending wt pwt since msg f))) := by
  unfold deprecate
  cases hn : nameArg == "" <;> simp [hn, getName, Bind.bind, Except.bind] <;>
    cases buildMessage since msgArg nameArg alt pending rv
      (objTypeName ot (.ofFunc f (γ := γ))) <;>
    simp [deprecate_function]

/-- Evaluating the `deprecate` closure on a class target: resolve the name,
build the message, mutate the class with `deprecate_class`. -/
theorem deprecate_ofClass {α β γ : Type} (since : String) (msgArg : MessageArg α β)
    (nameArg alt : String) (pending : Bool) (rv ot : Option String) (wt pwt : WCategory)
    (c : PyClass α β γ) :
    deprecate since msgArg nameArg alt pending rv ot wt pwt (.ofClass c)
      = (buildMessage since msgArg (if nameArg == "" then c.cname else nameArg) alt pending rv
          (objTypeName ot (.ofClass c))).bind
          (fun msg => .ok (.ofClass (deprecate_class pending wt pwt since c msg))) := by
  unfold deprecate
  cases hn : nameArg == "" <;> simp [hn, getName, Bind.bind, Except.bind]

/-- When the factory returns a decorator, the `message` argument was a
string and the decorator is the `deprecate` closure over the computed
removal version. -/
theorem decorator_eq {α β γ : Type} (since nameArg alt : String)
    (pending : Bool) (obj_type : Option String) (msgArg : MessageArg α β)
    (d : PyObj α β γ → Except PyErr (PyObj α β γ))
    (hd : deprecated since msgArg nameArg alt pending obj_type = .ok (.decorator d)) :
    ∃ s p, msgArg = .str s ∧ get_removal_version since = .ok p
      ∧ d = fun obj =>
          deprecate since msgArg nameArg alt pending (some (verStr p)) obj_type wtD wtP obj := by
  unfold deprecated at hd
  cases hg : get_removal_version since with
  | error e => rw [hg] at hd; exact absurd hd (by simp)
  | ok p =>
    rw [hg] at hd
    have hd' := Except.ok.inj hd
    unfold _deprecated at hd'
    cases msgArg with
    | func g => exact absurd hd' (by simp)
    | str s =>
      exact ⟨s, p, rfl, rfl, (DeprecatedResult.decorator.inj hd').symm⟩

/-- When the factory returns a decorator and that decorator turns a plain
function into a function, the result is `wrapFunc` for some message. -/
theorem decorator_on_func {α β γ : Type} (since nameArg alt : String)
    (pending : Bool) (obj_type : Option String) (msgArg : MessageArg α β)
    (d : PyObj α β γ → Except PyErr (PyObj α β γ))
    (hd : deprecated since msgArg nameArg alt pending obj_type = .ok (.decorator d))
    (f f' : PyFunc α β) (hf : d (.ofFunc f) = .ok (.ofFunc f')) :
    ∃ msg, f' = wrapFunc pending wtD wtP since msg f := by
  obtain ⟨s, p, hs, hp, hdeq⟩ := decorator_eq since nameArg alt pending obj_type msgArg d hd
  subst hs hdeq
  simp only [] at hf
  rw [deprecate_ofFunc] at hf
  cases hb : buildMessage since (.str s) (if nameArg == "" then f.fname else nameArg) alt
      pending (some (verStr p)) (objTypeName obj_type (.ofFunc f (γ := γ))) with
  | error e => rw [hb] at hf; exact absurd hf (by simp [Except.bind])
  | ok msg =>
    rw [hb] at hf
    refine ⟨msg, ?_⟩
    have h2 := Except.ok.inj hf
    exact (PyObj.ofFunc.inj h2).symm

/-- When the factory returns a decorator and it is applied to a class, the
result is the in-place `deprecate_class` mutation for some message. -/
theorem decorator_on_class {α β γ : Type} (since nameArg alt : String)
    (pending : Bool) (obj_type : Option String) (msgArg : MessageArg α β)
    (d : PyObj α β γ → Except PyErr (PyObj α β γ))
    (hd : deprecated since msgArg nameArg alt pending obj_type = .ok (.decorator d))
    (c c' : PyClass α β γ) (hc : d (.ofClass c) = .ok (.ofClass c')) :
    ∃ msg, c' = deprecate_class pending wtD wtP since c msg := by
  obtain ⟨s, p, hs, hp, hdeq⟩ := decorator_eq since nameArg alt pending obj_type msgArg d hd
  subst hs hdeq
  simp only [] at hc
  rw [deprecate_ofClass] at hc
  cases hb : buildMessage since (.str s) (if nameArg == "" then c.cname else nameArg) alt
      pending (some (verStr p)) (objTypeName obj_type (.ofClass c)) with
  | error e => rw [hb] at hc; exact absurd hc (by simp [Except.bind])
  | ok msg =>
    rw [hb] at hc
    refine ⟨msg, ?_⟩
    have h2 := Except.ok.inj hc
    exact (PyObj.ofClass.inj h2).symm

/-! ### Claim C1 -/

/-- C1: invoking the artifact returned by `deprecated(...)` emits exactly
one warning (prepended to whatever the original itself emits) and then
invokes the original logic with identical arguments, returning its value
unchanged; for a class, the wrapped constructor entry point behaves the
same per construction. -/
theorem c1_wrapped_delegates {α β γ : Type} (since nameArg alt : String)
    (pending : Bool) (obj_type : Option String) (msgArg : MessageArg α β)
    (d : PyObj α β γ → Except PyErr (PyObj α β γ))
    (hd : deprecated since msgArg nameArg alt pending obj_type = .ok (.decorator d)) :
    (∀ (f f' : PyFunc α β), d (.ofFunc f) = .ok (.ofFunc f') →
      ∃ w, ∀ a, f'.call a = (w :: (f.call a).1, (f.call a).2))
    ∧ (∀ (c c' : PyClass α β γ), d (.ofClass c) = .ok (.ofClass c') →
      ∃ w, ∀ a, entryPoint c' a = (w :: (entryPoint c a).1, (entryPoint c a).2)) := by
  constructor
  · intro f f' hf
    obtain ⟨msg, hmsg⟩ :=
      decorator_on_func since nameArg alt pending obj_type msgArg d hd f f' hf
    subst hmsg
    exact ⟨⟨msg, if pending then wtP else wtD⟩, fun a => rfl⟩
  · intro c c' hc
    obtain ⟨msg, hmsg⟩ :=
      decorator_on_class since nameArg alt pending obj_type msgArg d hd c c' hc
    subst hmsg
    refine ⟨⟨msg, if pending then wtP else wtD⟩, fun a => ?_⟩
    unfold deprecate_class entryPoint
    cases hni : c.newInherited <;> simp [hni, wrapFunc, deprecated_func_call]

/-- A sample plain-function target. -/
def fC : PyFunc Nat Nat := ⟨none, "f", false, fun n => ([], .ok (n + 1))⟩

/-- The decorator produced by `deprecated("1.0")` with all defaults. -/
def dC : PyObj Nat Nat Unit → Except PyErr (PyObj Nat Nat Unit) :=
  fun obj => deprecate "1.0" (.str "") "" "" false (some (verStr (1, 1))) none wtD wtP obj

/-- The message computed for `fC` under `deprecated("1.0")`. -/
def msgF : String := "The f function is deprecated and may be removed in version 1.1."

/-- A sample class target whose `__new__` is inherited from `object`
(slot wrapper), with a Python-level `__init__`. -/
def cC : PyClass Nat Nat Unit :=
  ⟨some "class doc", "C", true,
   ⟨none, "init", false, fun n => ([], .ok n)⟩,
   ⟨some "object new doc", "new", true, fun n => ([], .ok n)⟩, ()⟩

/-- The message computed for `cC` under `deprecated("1.0")`. -/
def msgC : String := "The C class is deprecated and may be removed in version 1.1."

/-- C1 witness: the function case and the class case, both at
`deprecated("1.0")` on concrete targets. -/
theorem c1_wrapped_delegates_witness :
    (∃ w, ∀ a, (wrapFunc false wtD wtP "1.0" msgF fC).call a
      = (w :: (fC.call a).1, (fC.call a).2))
    ∧ (∃ w, ∀ a, entryPoint (deprecate_class false wtD wtP "1.0" cC msgC) a
      = (w :: (entryPoint cC a).1, (entryPoint cC a).2)) := by
  have h := c1_wrapped_delegates (γ := Unit) "1.0" "" "" false none (.str "") dC rfl
  exact ⟨h.1 fC _ rfl, h.2 cC _ rfl⟩

/-! ### Claim C4 -/

/-- C4: every invocation of a wrapped function emits its warning with the
soft (pending) category exactly when the decoration was made with
`pending = true`, and with the hard category otherwise. -/
theorem c4_pending_selects_category {α β γ : Type} (since nameArg alt : String)
    (pending : Bool) (obj_type : Option String) (msgArg : MessageArg α β)
    (d : PyObj α β γ → Except PyErr (PyObj α β γ))
    (hd : deprecated since msgArg nameArg alt pending obj_type = .ok (.decorator d))
    (f f' : PyFunc α β) (hf : d (.ofFunc f) = .ok (.ofFunc f')) :
    ∃ m, ∀ a, (f'.call a).1
      = ⟨m, if pending then WCategory.SunpyPendingDeprecationWarning
            else WCategory.SunpyDeprecationWarning⟩ :: (f.call a).1 := by
  obtain ⟨msg, hmsg⟩ :=
    decorator_on_func since nameArg alt pending obj_type msgArg d hd f f' hf
  subst hmsg
  exact ⟨msg, fun a => rfl⟩

/-- A second sample function target for the pending case. -/
def gC : PyFunc Nat Nat := ⟨none, "g", false, fun n => ([], .ok (2 * n))⟩

/-- The decorator produced by `deprecated("2.0", pending=True)`. -/
def dP : PyObj Nat Nat Unit → Except PyErr (PyObj Nat Nat Unit) :=
  fun obj => deprecate "2.0" (.str "") "" "" true (some (verStr (2, 1))) none wtD wtP obj

/-- The pending message computed for `gC` under `deprecated("2.0", pending=True)`. -/
def msgG : String := "The g function will be deprecated in version 2.0."

/-- C4 witness: with `pending = true` the emitted category is the soft one,
with `pending = false` the hard one, at concrete decorations. -/
theorem c4_pending_selects_category_witness :
    (∃ m, ∀ a, ((wrapFunc true wtD wtP "2.0" msgG gC).call a).1
      = ⟨m, WCategory.SunpyPendingDeprecationWarning⟩ :: (gC.call a).1)
    ∧ (∃ m, ∀ a, ((wrapFunc false wtD wtP "1.0" msgF fC).call a).1
      = ⟨m, WCategory.SunpyDeprecationWarning⟩ :: (fC.call a).1) :=
  ⟨c4_pending_selects_category (γ := Unit) "2.0" "" "" true none (.str "") dP rfl
      gC _ rfl,
   c4_pending_selects_category (γ := Unit) "1.0" "" "" false none (.str "") dC rfl
      fC _ rfl⟩

/-! ### Claim C5 -/

/-- C5: `deprecate_class` changes only the docstring and the constructor
entry point of the class record — the initializer when `__new__` is
inherited from `object`, otherwise the allocator — and every other
attribute (the opaque rest, the name, the allocator-override flag, and the
non-wrapped constructor entry) is unchanged. -/
theorem c5_class_in_place_mutation {α β γ : Type} (pending : Bool) (wt pwt : WCategory)
    (since message : String) (c : PyClass α β γ) :
    ((deprecate_class pending wt pwt since c message).rest = c.rest
      ∧ (deprecate_class pending wt pwt since c message).cname = c.cname
      ∧ (deprecate_class pending wt pwt since c message).newInherited = c.newInherited)
    ∧ (deprecate_class pending wt pwt since c message).doc
        = some (deprecate_doc since c.doc message)
    ∧ ((c.newInherited = true
          ∧ (deprecate_class pending wt pwt since c message).init
              = wrapFunc pending wt pwt since message c.init
          ∧ (deprecate_class pending wt pwt since c message).new = c.new)
        ∨ (c.newInherited = false
          ∧ (deprecate_class pending wt pwt since c message).new
              = wrapFunc pending wt pwt since message c.new
          ∧ (deprecate_class pending wt pwt since c message).init = c.init)) := by
  unfold deprecate_class
  cases hni : c.newInherited
  · exact ⟨⟨rfl, rfl, rfl⟩, rfl, Or.inr ⟨rfl, rfl, rfl⟩⟩
  · exact ⟨⟨rfl, rfl, rfl⟩, rfl, Or.inl ⟨rfl, rfl, rfl⟩⟩

/-! ### Claim C6 -/

/-- A factory call that produced a decorator (rather than failing). -/
def returnsDecorator {α β γ : Type} : Except PyErr (DeprecatedResult α β γ) → Bool
  | .ok (.decorator _) => true
  | _ => false

/-- C6 counterexample: `since = "1.x"` has a non-numeric minor component,
yet `get_removal_version` raises nothing — the non-LTS branch never parses
the minor — and `deprecated("1.x", ...)` happily returns a decorator. -/
theorem c6_counterexample :
    get_removal_version "1.x" = .ok (2, 1)
    ∧ returnsDecorator
        (deprecated (α := Nat) (β := Nat) (γ := Unit) "1.x" (.str "") "f" "" false none)
        = true :=
  ⟨rfl, rfl⟩

/-- C6 amended: only a non-numeric *major* component makes
`deprecated(since, ...)` fail fast with the parsing error; a minor
component other than the exact string `"0"` — numeric or not — is never
parsed: the since string is treated as non-LTS and the removal version is
`(major + 1, 1)`. -/
theorem c6_since_parsing_amended (since sMaj sMin : String) (rest : List String)
    (hsplit : (splitOnCh '.' since.data).map String.mk = sMaj :: sMin :: rest) :
    (pyInt sMaj = none → get_removal_version since = .error .valueError)
    ∧ (∀ M, pyInt sMaj = some M → sMin ≠ "0" → get_removal_version since = .ok (M + 1, 1)) := by
  constructor
  · intro hM
    unfold get_removal_version
    rw [hsplit]
    cases hmin : sMin == "0" <;> simp [hmin, hM]
  · intro M hM hne
    unfold get_removal_version
    rw [hsplit]
    have hmin : (sMin == "0") = false := beq_eq_false_iff_ne.mpr hne
    simp [hmin, hM]

/-- C6 witness: a non-numeric major fails with the parsing error, while a
non-numeric minor succeeds as the non-LTS case. -/
theorem c6_since_parsing_amended_witness :
    get_removal_version "A.3" = .error .valueError
    ∧ get_removal_version "1.x" = .ok (2, 1) :=
  ⟨(c6_since_parsing_amended "A.3" "A" "3" [] rfl).1 rfl,
   (c6_since_parsing_amended "1.x" "1" "x" [] rfl).2 1 rfl (by decide)⟩

/-! ### Claim C7 -/

/-- The non-pending default message success lemma generalised over the
optional removal version. -/
theorem buildMessage_default_ok {α β : Type} (since name alternative : String)
    (pending : Bool) (rv : Option String) (otn : String) :
    ∃ msg, buildMessage (α := α) (β := β) since (.str "") name alternative pending rv otn
      = .ok msg := by
  cases pending
  · exact ⟨_, buildMessage_default_hard since name alternative rv otn⟩
  · exact ⟨_, buildMessage_default_pending since name alternative rv otn⟩

/-- The call closure of a non-callable Python object: raises `TypeError`. -/
def appTE : Call Nat Nat := fun _ => ([], .error .typeError)

/-- C7 counterexample: a target that is neither callable nor a class (no
`__name__`, calling it raises `TypeError`), decorated with an explicit
`name`, is silently wrapped — the dispatch returns a forwarding wrapper
instead of failing loudly. -/
theorem c7_counterexample :
    deprecate (γ := Unit) "1.0" (.str "") "thing" "" false (some "1.1") none wtD wtP
        (.other none none appTE)
      = .ok (.ofFunc
          ⟨some (deprecate_doc "1.0" none
              "The thing object is deprecated and may be removed in version 1.1."),
           "deprecated_func", false,
           deprecated_func_call false wtD wtP
             "The thing object is deprecated and may be removed in version 1.1." appTE⟩) :=
  rfl

/-- C7 amended: decorating a target that is neither callable nor a class
fails only when the name must be derived from a target without `__name__`
(an `AttributeError` from the name-resolution step); with an explicit
`name` the dispatch silently produces a forwarding wrapper whose later
invocation warns once and then raises the target's `TypeError`. -/
theorem c7_non_callable_dispatch_amended {α β γ : Type} (since nameArg alt : String)
    (pending : Bool) (rv ot : Option String) (wt pwt : WCategory)
    (nm doc : Option String) (app : Call α β) :
    (nameArg = "" → nm = none →
      deprecate (γ := γ) since (.str "") nameArg alt pending rv ot wt pwt
          (.other nm doc app)
        = .error .attributeError)
    ∧ (nameArg ≠ "" →
      ∃ msg,
        deprecate (γ := γ) since (.str "") nameArg alt pending rv ot wt pwt
            (.other nm doc app)
          = .ok (.ofFunc
              ⟨some (deprecate_doc since doc msg), nm.getD "deprecated_func", false,
               deprecated_func_call pending wt pwt msg app⟩)
        ∧ ∀ a, app a = ([], .error .typeError) →
            deprecated_func_call pending wt pwt msg app a
              = ([⟨msg, if pending then pwt else wt⟩], .error .typeError)) := by
  constructor
  · intro hn hnm
    subst hn hnm
    unfold deprecate
    simp [getName, Bind.bind, Except.bind]
  · intro hn
    have hbeq : (nameArg == "") = false := beq_eq_false_iff_ne.mpr hn
    obtain ⟨msg, hmsg⟩ := buildMessage_default_ok (α := α) (β := β) since nameArg alt pending rv
      (objTypeName ot (.other nm doc app (γ := γ)))
    refine ⟨msg, ?_, ?_⟩
    · unfold deprecate
      simp [hbeq, Bind.bind, Except.bind, hmsg, deprecate_function]
    · intro a happ
      unfold deprecated_func_call
      rw [happ]

/-- C7 witness: the `AttributeError` case (no `__name__`, no explicit name)
and the silently-wrapped case (explicit name) at a concrete non-callable. -/
theorem c7_non_callable_dispatch_amended_witness :
    (deprecate (γ := Unit) "1.0" (.str "") "" "" false (some "1.1") none wtD wtP
        (.other none none appTE)
      = .error .attributeError)
    ∧ ∃ msg,
        deprecate (γ := Unit) "2.0" (.str "") "thing2" "" false (some "2.1") none wtD wtP
            (.other none none appTE)
          = .ok (.ofFunc
              ⟨some (deprecate_doc "2.0" none msg), "deprecated_func", false,
               deprecated_func_call false wtD wtP msg appTE⟩)
        ∧ ∀ a, appTE a = ([], .error .typeError) →
            deprecated_func_call false wtD wtP msg appTE a
              = ([⟨msg, wtD⟩], .error .typeError) :=
  ⟨(c7_non_callable_dispatch_amended "1.0" "" "" false (some "1.1") none wtD wtP
      none none appTE).1 rfl rfl,
   (c7_non_callable_dispatch_amended "2.0" "thing2" "" false (some "2.1") none wtD wtP
      none none appTE).2 (by decide)⟩

/-! ### Claim C8 -/

/-- C8: `add_common_docstring` rewrites the documentation to the prepend
fragment, then the original documentation, then the append fragment
(missing fragments and a missing docstring behaving as empty strings),
format-substituting only when substitutions were given; in particular on a
callable without documentation, `prepend="A"`, `append="B"` yield exactly
`"AB"`. -/
theorem c8_add_common_docstring (a p orig : Option String)
    (kwargs : List (String × String)) :
    (add_common_docstring.callOn ⟨a, p, kwargs⟩ orig
      = (let combined := p.getD "" ++ (orig.getD "" ++ a.getD "")
         let self' : add_common_docstring := ⟨some (a.getD ""), some (p.getD ""), kwargs⟩
         match kwargs with
         | [] => .ok (combined, self')
         | _ => (pyFormat combined kwargs).map (fun d => (d, self'))))
    ∧ add_common_docstring.callOn ⟨some "B", some "A", []⟩ none
      = .ok ("AB", ⟨some "B", some "A", []⟩) := by
  refine ⟨?_, rfl⟩
  unfold add_common_docstring.callOn
  have h1 : (if (a.getD "" == "") = true then orig.getD "" else orig.getD "" ++ a.getD "")
      = orig.getD "" ++ a.getD "" := by
    cases ha : a.getD "" == ""
    · rfl
    · rw [if_pos rfl, eq_of_beq ha, str_append_empty]
  have h2 : ∀ d : String, (if (p.getD "" == "") = true then d else p.getD "" ++ d)
      = p.getD "" ++ d := by
    intro d
    cases hp : p.getD "" == ""
    · rfl
    · rw [if_pos rfl, eq_of_beq hp, str_empty_append]
  simp only [h1, h2]

/-! ### Claim C9 -/

/-- C9: for every registry and every substring, `find(x)` is a subset of
`find()`, `get(n)` succeeds for every name in `find()`, and when no
registered name or alias matches the substring, `find(x)` is empty. -/
theorem c9_registry_invariants (reg : List ConstantRecord) (sub : String) :
    (∀ n, n ∈ Constants.find reg (some sub) → n ∈ Constants.find reg none)
    ∧ (∀ n, n ∈ Constants.find reg none → ∃ r, Constants.get reg n = .ok r)
    ∧ ((∀ r ∈ reg, Constants.recordMatches sub r = false) →
        Constants.find reg (some sub) = []) := by
  refine ⟨?_, ?_, ?_⟩
  · intro n hn
    simp only [Constants.find, List.mem_map] at hn ⊢
    obtain ⟨r, hr, rfl⟩ := hn
    exact ⟨r, List.mem_of_mem_filter hr, rfl⟩
  · intro n hn
    simp only [Constants.find, List.mem_map] at hn
    obtain ⟨r, hr, rfl⟩ := hn
    unfold Constants.get
    cases hfind : reg.find? (fun r2 => r2.cname == r.cname) with
    | none =>
      exfalso
      have := List.find?_eq_none.mp hfind r hr
      simp at this
    | some r2 => exact ⟨r2, rfl⟩
  · intro hall
    have : reg.filter (Constants.recordMatches sub) = [] := by
      rw [List.filter_eq_nil_iff]
      intro r hr
      simp [hall r hr]
    show List.map (fun r => r.cname) (List.filter (Constants.recordMatches sub) reg) = []
    rw [this]
    rfl

/-- Modelled from the spec: a sample reference table of registered
constants, used to instantiate the registry invariants (the real table of
34 records lives outside the visible slice). -/
def sampleRegistry : List ConstantRecord :=
  [⟨"mass", ["solar mass"], "1.98892e30", "kg", some "2.5e25", "Allen"⟩,
   ⟨"radius", ["solar radius"], "6.95508e8", "m", some "26000", "Allen"⟩,
   ⟨"luminosity", [], "3.8268e26", "W", some "8e24", "Allen"⟩,
   ⟨"mean distance", ["au", "astronomical unit"], "1.495979e11", "m", none, "Allen"⟩]

/-- C9 witness: `find` of `"boo"`, `"crab"` and `"foo"` is empty on the
sample table, and `get` succeeds on a name from `find()`. -/
theorem c9_registry_invariants_witness :
    Constants.find sampleRegistry (some "boo") = []
    ∧ Constants.find sampleRegistry (some "crab") = []
    ∧ Constants.find sampleRegistry (some "foo") = []
    ∧ ("mass" ∈ Constants.find sampleRegistry none
        ∧ ∃ r, Constants.get sampleRegistry "mass" = .ok r) := by
  refine ⟨?_, ?_, ?_, by decide, ?_⟩
  · exact (c9_registry_invariants sampleRegistry "boo").2.2 (by decide)
  · exact (c9_registry_invariants sampleRegistry "crab").2.2 (by decide)
  · exact (c9_registry_invariants sampleRegistry "foo").2.2 (by decide)
  · exact (c9_registry_invariants sampleRegistry "boo").2.1 "mass" (by decide)

/-! ### Claim C10 -/

/-- C10: when the `message` argument is itself a function, the factory does
not return a decorator — it immediately wraps that function as the target,
and the resulting decoration equals the default-message decoration (the
custom-message path is bypassed). -/
theorem c10_message_function_bypasses {α β γ : Type} (since nameArg alt : String)
    (pending : Bool) (rv ot : Option String) (wt pwt : WCategory) (f : PyFunc α β) :
    _deprecated (γ := γ) since (.func f) nameArg alt pending rv ot wt pwt
      = .applied
          (deprecate (γ := γ) since (.str "") nameArg alt pending rv ot wt pwt (.ofFunc f)) := by
  unfold _deprecated
  congr 1

end SunpyUtil
